import Mathlib

/-!
Verification of the summed-area-table (SAT) renderer core in
`src/viewer/renderer.cpp`.

The development shallowly embeds:

* the CPU SAT reference path of `Renderer::Paint` (renderer.cpp:469-490),
* the GPU SAT scan (the four-step up-sweep / down-sweep scan plus
  transpose); the compute shaders `sat_up.comp`, `sat_down.comp` and
  `sat_transpose.comp` are part of the repository but are not under
  `src/`, so the per-step kernels are modelled from the specification
  (spec.md section 4.1, steps 1-5),
* the gamma decode `uvec4(pow(vec4(c)/255.0f, 2.2f) * 255.0f)`
  (renderer.cpp:472/478), idealized over exact real arithmetic and
  reformulated over integers (2.2 = 11/5, so the comparison
  `n <= 255*(c/255)^(11/5)` is exactly `n^5 * 255^6 <= c^11`),
* `Renderer::Resize` (renderer.cpp:151-257): buffer dimensions, the
  tile padding `(dim + TILE - 1) & -TILE` on 32-bit ints, and the
  allocation-time asserts (renderer.cpp:222-223),
* the per-frame command trace of `Renderer::Paint` and the timestamp
  reads of `Renderer::UpdateGUI` (renderer.cpp:259-323, 325-726):
  which stages run, which GPU/CPU timestamps are written and read, and
  which memory barriers separate the SAT scan dispatches.

All accumulators in the SAT are 32-bit unsigned (glm::uvec4 on the CPU,
RGBA32UI images on the GPU), so every addition is taken mod 2^32.
-/

/-- Modulus of the 32-bit unsigned accumulators (`glm::uvec4` channels on
the CPU path, `RGBA32UI` texels on the GPU path): 2^32. -/
def M : Nat := 4294967296

/-- Downward scan helper: largest `n ≤ bound` with `n^5 * 255^6 ≤ c^11`,
i.e. the largest `n` with `n ≤ 255 * (c/255)^(11/5)` in exact real
arithmetic (raise both sides to the 5th power; both sides are integers
after multiplying by `255^6`). -/
def decodeAux (c : Nat) : Nat → Nat
  | 0 => 0
  | n + 1 => if (n + 1) ^ 5 * 255 ^ 6 ≤ c ^ 11 then n + 1 else decodeAux c n

/-- Gamma decode of one 8-bit channel, from renderer.cpp:472/478:
`uvec4(pow(vec4(c) / 255.0f, 2.2f) * 255.0f)`.  The `uvec4` conversion
from float truncates toward zero, so this is
`floor (255 * (c/255)^2.2)`, idealized over exact real arithmetic
(2.2 = 11/5; for `0 ≤ n` and `0 ≤ c ≤ 255`,
`n ≤ 255*(c/255)^(11/5) ↔ n^5*255^6 ≤ c^11`, which makes the floor
computable over Nat).  Intended domain: `c ≤ 255` (source pixels are
8-bit). -/
def decode (c : Nat) : Nat := decodeAux c 255

/-- Downward scan helper for the round-to-nearest variant: largest
`n ≤ bound` with `n ≤ 255*(c/255)^(11/5) + 1/2`, i.e.
`(2n-1)^5 * 255^6 ≤ 32 * c^11` (multiply `n - 1/2 ≤ v` by 2 and raise
to the 5th power; `n = 0` always qualifies). -/
def decodeRoundAux (c : Nat) : Nat → Nat
  | 0 => 0
  | n + 1 =>
    if (2 * (n + 1) - 1) ^ 5 * 255 ^ 6 ≤ 32 * c ^ 11 then n + 1
    else decodeRoundAux c n

/-- Modelled from the spec: `channel' = round(255 * (channel/255)^2.2)`
(spec.md section 4.1, CPU reference path).  This is the rounding decode
that the spec claims the code performs, i.e.
`floor (255 * (c/255)^2.2 + 1/2)`, made computable over Nat the same
way as `decode`.  Intended domain: `c ≤ 255`. -/
def decodeRound (c : Nat) : Nat := decodeRoundAux c 255

/-! ## CPU SAT path, from renderer.cpp:469-490

The CPU reference path works per channel; a 4-channel pixel is four
independent accumulators, so the model is per-channel with the image
given as a function `Nat → Nat → Nat` (row, column ↦ channel value).

The row pass (renderer.cpp:469-481) writes, for each row,
`T[row][0] = decode(src[row][0])` and then
`T[row][col] = decode(src[row][col]) + T[row][col-1]`; the column pass
(renderer.cpp:484-490) then does `T[row][col] += T[row-1][col]` in
place, top to bottom.  Cells are computed strictly from
already-computed cells, so the in-place flat array (stride
`mSummedAreaTableWidth`) is embedded as a recursion per cell.  Both
passes are generic in the per-pixel value so that the same definitions
serve the "given identical gamma decoding" comparison with the GPU
path; the concrete source path plugs in `decode`. -/

/-- Row pass of the CPU SAT (renderer.cpp:469-481), per channel, on an
already-decoded image `img`: inclusive left-to-right running sum of row
`y`, each store truncated to 32 bits (`glm::uvec4`). -/
def cpuRowSAT (img : Nat → Nat → Nat) (y : Nat) : Nat → Nat
  | 0 => img y 0 % M
  | x + 1 => (img y (x + 1) + cpuRowSAT img y x) % M

/-- Column pass of the CPU SAT (renderer.cpp:484-490) applied on top of
the row pass, per channel: `T[y][x] = rowSAT[y][x] + T[y-1][x]`,
top to bottom, in 32-bit arithmetic.  `cpuSAT img y x` is the final
CPU table entry at row `y`, column `x`. -/
def cpuSAT (img : Nat → Nat → Nat) : Nat → Nat → Nat
  | 0, x => cpuRowSAT img 0 x
  | y + 1, x => (cpuRowSAT img (y + 1) x + cpuSAT img y x) % M

/-- The CPU SAT as the source computes it from raw 8-bit pixels: the
gamma decode of renderer.cpp:472/478 is applied to each source pixel
inside the row pass, before the first accumulation. -/
def cpuSATOfBytes (src : Nat → Nat → Nat) (y x : Nat) : Nat :=
  cpuSAT (fun y' x' => decode (src y' x')) y x

/-! ## GPU SAT path

Modelled from the spec (spec.md section 4.1, GPU parallel path): the
compute shaders `sat_up.comp`, `sat_down.comp`, `sat_transpose.comp`
are repository files not present under `src/`; `renderer.cpp:519-663`
only dispatches them.  Per axis, with tile size `T`
(`SAT_WORKGROUP_SIZE_X`):

1. up-sweep: each tile of `T` contiguous elements computes its own
   inclusive running sum; the tile's total is its last element;
2. up-sweep of the per-tile totals: inclusive scan of the totals;
3. down-sweep of the totals, converting the inclusive scan to an
   exclusive one (each tile's carry-in is the sum of all strictly
   preceding tiles);
4. down-sweep broadcast: each element gets its tile's carry-in added;
5. transpose, modelled as an index swap, so the same row scan runs
   along the other axis.

Element `i` lives in tile `i / T` at offset `i % T`; all sums are in
32-bit unsigned arithmetic, as on the GPU (`RGBA32UI`). -/

/-- Inclusive scan inside one tile (spec step 1): value at offset `r`
from tile base `base` is the 32-bit running sum of
`f base, …, f (base + r)`. -/
def tileScan (f : Nat → Nat) (base : Nat) : Nat → Nat
  | 0 => f base % M
  | r + 1 => (f (base + (r + 1)) + tileScan f base r) % M

/-- Step-1 output at global index `i`: the tile-local inclusive scan of
the tile containing `i` (tile base `T * (i / T)`, offset `i % T`). -/
def upsweep (T : Nat) (f : Nat → Nat) (i : Nat) : Nat :=
  tileScan f (T * (i / T)) (i % T)

/-- Total of tile `t`: the last element (offset `T - 1`) of the
tile-local inclusive scan, written to the per-tile sums buffer
(spec step 1). -/
def tileTotal (T : Nat) (f : Nat → Nat) (t : Nat) : Nat :=
  tileScan f (T * t) (T - 1)

/-- Step 2 (up-sweep of the per-tile totals): inclusive 32-bit scan of
the tile totals, computed in one tile. -/
def wgInclScan (T : Nat) (f : Nat → Nat) : Nat → Nat
  | 0 => tileTotal T f 0
  | t + 1 => (tileTotal T f (t + 1) + wgInclScan T f t) % M

/-- Step 3 (down-sweep of the per-tile totals, in place): the inclusive
scan becomes exclusive; tile `t`'s carry-in is the sum of all strictly
preceding tiles. -/
def wgExclScan (T : Nat) (f : Nat → Nat) : Nat → Nat
  | 0 => 0
  | t + 1 => wgInclScan T f t

/-- Step 4 (down-sweep broadcast): every element of tile `i / T` gets
the tile's exclusive carry-in added, yielding the final per-axis
inclusive running sum. -/
def downsweep (T : Nat) (f : Nat → Nat) (i : Nat) : Nat :=
  (upsweep T f i + wgExclScan T f (i / T)) % M

/-- GPU row pass result at row `y`, column `x`: the four-step scan run
along row `y` of the decoded image. -/
def gpuRowSAT (T : Nat) (img : Nat → Nat → Nat) (y x : Nat) : Nat :=
  downsweep T (fun x' => img y x') x

/-- Full GPU SAT: transpose the row-pass result (index swap, spec step
5), run the same four-step scan along the other axis, transpose back.
Entry at row `y`, column `x` scans column `x` of the row-pass output
down to row `y`.  The scan at index `i` only reads indices `≤ i`, so
tile-padding lanes beyond the image never influence in-image entries,
matching the "written but never read" padding policy. -/
def gpuSAT (T : Nat) (img : Nat → Nat → Nat) (y x : Nat) : Nat :=
  downsweep T (fun y' => gpuRowSAT T img y' x) y

/-! ## Closed forms of both paths

Each path is reduced to the 2D running sum of the image taken mod 2^32;
the refinement claims then follow by rewriting both sides. -/

/-- The tile-local inclusive scan is the 32-bit sum of the tile segment
up to the given offset. -/
lemma tileScan_eq (f : Nat → Nat) (b r : Nat) :
    tileScan f b r = (∑ j ∈ Finset.range (r + 1), f (b + j)) % M := by
  induction r with
  | zero => simp [tileScan]
  | succ r ih =>
    simp only [tileScan]
    rw [ih]
    conv_rhs => rw [Finset.sum_range_succ]
    generalize (∑ j ∈ Finset.range (r + 1), f (b + j)) = S
    generalize f (b + (r + 1)) = a
    simp only [M]
    omega

/-- The step-1 output at index `i` sums the containing tile from its
base up to `i`. -/
lemma upsweep_eq (T : Nat) (f : Nat → Nat) (i : Nat) :
    upsweep T f i = (∑ j ∈ Finset.Ico (T * (i / T)) (i + 1), f j) % M := by
  rw [upsweep, tileScan_eq]
  congr 1
  rw [Finset.sum_Ico_eq_sum_range]
  have h : i + 1 - T * (i / T) = i % T + 1 := by
    have := Nat.div_add_mod i T; omega
  rw [h]

/-- The tile total is the 32-bit sum of the whole tile. -/
lemma tileTotal_eq (T : Nat) (hT : 0 < T) (f : Nat → Nat) (t : Nat) :
    tileTotal T f t = (∑ j ∈ Finset.Ico (T * t) (T * t + T), f j) % M := by
  rw [tileTotal, tileScan_eq]
  conv_rhs => rw [Finset.sum_Ico_eq_sum_range]
  have h1 : T * t + T - T * t = T := by omega
  have h2 : T - 1 + 1 = T := by omega
  rw [h1, h2]

/-- The inclusive scan of tile totals sums every element of tiles
`0 … t`. -/
lemma wgInclScan_eq (T : Nat) (hT : 0 < T) (f : Nat → Nat) (t : Nat) :
    wgInclScan T f t = (∑ j ∈ Finset.range (T * (t + 1)), f j) % M := by
  induction t with
  | zero =>
    rw [show wgInclScan T f 0 = tileTotal T f 0 from rfl, tileTotal_eq T hT,
      Finset.range_eq_Ico]
    simp
  | succ t ih =>
    simp only [wgInclScan]
    rw [tileTotal_eq T hT, ih, Finset.range_eq_Ico]
    have h2 : T * (t + 1) + T = T * (t + 1 + 1) := by ring
    have hc := Finset.sum_Ico_consecutive f (Nat.zero_le (T * (t + 1)))
      (Nat.le_add_right (T * (t + 1)) T)
    rw [← h2]
    generalize hA : (∑ j ∈ Finset.Ico 0 (T * (t + 1)), f j) = A at hc ⊢
    generalize hB : (∑ j ∈ Finset.Ico (T * (t + 1)) (T * (t + 1) + T), f j) = B at hc ⊢
    generalize hC : (∑ j ∈ Finset.Ico 0 (T * (t + 1) + T), f j) = C at hc ⊢
    simp only [M]
    omega

/-- The exclusive scan of tile totals sums every element strictly
before tile `t`. -/
lemma wgExclScan_eq (T : Nat) (hT : 0 < T) (f : Nat → Nat) (t : Nat) :
    wgExclScan T f t = (∑ j ∈ Finset.range (T * t), f j) % M := by
  cases t with
  | zero => simp [wgExclScan]
  | succ t =>
    rw [show wgExclScan T f (t + 1) = wgInclScan T f t from rfl, wgInclScan_eq T hT]

/-- The four-step scan computes the inclusive 32-bit running sum. -/
lemma downsweep_eq (T : Nat) (hT : 0 < T) (f : Nat → Nat) (i : Nat) :
    downsweep T f i = (∑ j ∈ Finset.range (i + 1), f j) % M := by
  rw [downsweep, upsweep_eq, wgExclScan_eq T hT, Finset.range_eq_Ico]
  have h1 : T * (i / T) ≤ i := by
    have := Nat.div_add_mod i T; omega
  have hc := Finset.sum_Ico_consecutive f (Nat.zero_le (T * (i / T)))
    (le_trans h1 (Nat.le_succ i))
  generalize hA : (∑ j ∈ Finset.Ico 0 (T * (i / T)), f j) = A at hc ⊢
  generalize hB : (∑ j ∈ Finset.Ico (T * (i / T)) (i + 1), f j) = B at hc ⊢
  generalize hC : (∑ j ∈ Finset.Ico 0 (i + 1), f j) = C at hc ⊢
  simp only [M]
  omega

/-- The CPU row pass computes the inclusive 32-bit running sum of the
row. -/
lemma cpuRowSAT_eq (img : Nat → Nat → Nat) (y x : Nat) :
    cpuRowSAT img y x = (∑ j ∈ Finset.range (x + 1), img y j) % M := by
  induction x with
  | zero => simp [cpuRowSAT]
  | succ x ih =>
    simp only [cpuRowSAT]
    rw [ih]
    conv_rhs => rw [Finset.sum_range_succ]
    generalize (∑ j ∈ Finset.range (x + 1), img y j) = S
    generalize img y (x + 1) = a
    simp only [M]
    omega

/-- The CPU table entry is the 2D 32-bit running sum of the image. -/
lemma cpuSAT_eq (img : Nat → Nat → Nat) (y x : Nat) :
    cpuSAT img y x =
      (∑ i ∈ Finset.range (y + 1), ∑ j ∈ Finset.range (x + 1), img i j) % M := by
  induction y with
  | zero => simp [cpuSAT, cpuRowSAT_eq]
  | succ y ih =>
    simp only [cpuSAT]
    rw [cpuRowSAT_eq, ih,
      Finset.sum_range_succ (fun i => ∑ j ∈ Finset.range (x + 1), img i j) (y + 1)]
    generalize (∑ j ∈ Finset.range (x + 1), img (y + 1) j) = P
    generalize (∑ i ∈ Finset.range (y + 1), ∑ j ∈ Finset.range (x + 1), img i j) = Q
    simp only [M]
    omega

/-- The GPU row pass entry is the inclusive 32-bit running sum of the
row. -/
lemma gpuRowSAT_eq (T : Nat) (hT : 0 < T) (img : Nat → Nat → Nat) (y x : Nat) :
    gpuRowSAT T img y x = (∑ j ∈ Finset.range (x + 1), img y j) % M := by
  rw [gpuRowSAT, downsweep_eq T hT]

/-- The full GPU table entry is the 2D 32-bit running sum of the
image. -/
lemma gpuSAT_eq (T : Nat) (hT : 0 < T) (img : Nat → Nat → Nat) (y x : Nat) :
    gpuSAT T img y x =
      (∑ i ∈ Finset.range (y + 1), ∑ j ∈ Finset.range (x + 1), img i j) % M := by
  rw [gpuSAT, downsweep_eq T hT]
  conv_rhs => rw [Finset.sum_nat_mod]
  congr 1
  exact Finset.sum_congr rfl fun i _ => gpuRowSAT_eq T hT img i x

/-- C1: for every image of decoded pixel channels, the GPU SAT path and
the CPU SAT path produce exactly equal tables, both after the row pass
and for the full 2D table, given identical gamma decoding (both paths
are applied to the same decoded image). -/
theorem C1_gpu_cpu_sat_equal (T : Nat) (hT : 0 < T) (img : Nat → Nat → Nat)
    (y x : Nat) :
    gpuRowSAT T img y x = cpuRowSAT img y x ∧ gpuSAT T img y x = cpuSAT img y x :=
  ⟨by rw [gpuRowSAT_eq T hT, cpuRowSAT_eq], by rw [gpuSAT_eq T hT, cpuSAT_eq]⟩

/-- Witness for C1 at tile size 4 on a concrete image. -/
theorem C1_gpu_cpu_sat_equal_witness :
    0 < 4 ∧
      (gpuRowSAT 4 (fun y x => y * 7 + x) 5 6 = cpuRowSAT (fun y x => y * 7 + x) 5 6 ∧
        gpuSAT 4 (fun y x => y * 7 + x) 5 6 = cpuSAT (fun y x => y * 7 + x) 5 6) :=
  ⟨by decide, C1_gpu_cpu_sat_equal 4 (by decide) (fun y x => y * 7 + x) 5 6⟩

/-- C2 counterexample: the claim says each channel is decoded as
`round(255 * (c/255)^2.2)`, but the source truncates (`uvec4` conversion
from float).  At channel value 128 the exact value is
`255 * (128/255)^2.2 ≈ 55.98`, so the code yields 55 while the claimed
rounding decode yields 56; the table entry for a constant-128 image at
(0,0) is 55, not 56. -/
theorem C2_decode_rounding_cex :
    cpuSATOfBytes (fun _ _ => 128) 0 0 = 55 ∧ decodeRound 128 = 56 ∧
      decode 128 ≠ decodeRound 128 := by decide

/-- C2 (amended): in the CPU SAT path every source pixel channel is
decoded exactly once, before the first accumulation, as
`channel' = floor(255 * (channel/255)^2.2)` (truncation, not rounding),
and the row-then-column passes accumulate exactly these decoded values:
the table is the 2D 32-bit running sum of the pointwise-decoded
image. -/
theorem C2_cpu_sat_decodes_once (src : Nat → Nat → Nat) (y x : Nat) :
    cpuSATOfBytes src y x =
      (∑ i ∈ Finset.range (y + 1), ∑ j ∈ Finset.range (x + 1), decode (src i j)) % M :=
  cpuSAT_eq _ y x

/-- C3: for an 8×8 image with every pixel (255,255,255,255) and
TILE = 4, the computed table satisfies `T[7][7] = 64 * decode 255` per
channel, with `decode 255 = 255` — on the CPU reference path and on the
GPU path fed the identically decoded image. -/
theorem C3_white_8x8 :
    cpuSATOfBytes (fun _ _ => 255) 7 7 = 64 * decode 255 ∧ decode 255 = 255 ∧
      gpuSAT 4 (fun _ _ => decode 255) 7 7 = 64 * decode 255 := by decide

/-! ## Resize, from renderer.cpp:151-257

`Renderer::Resize(width, height)` recomputes every dimension-bearing
field from its arguments alone: window and backbuffer sizes
(renderer.cpp:153-157), the multisampled and single-sampled color and
depth targets (renderer.cpp:163-213, all `width × height`), the
tile-padded summed-area-table dimensions (renderer.cpp:217-218), the
CPU readback and table arrays (renderer.cpp:225-229), and the four SAT
textures with their workgroup-sums companions (renderer.cpp:231-255).
The tile size `SAT_WORKGROUP_SIZE_X` comes from `preamble.glsl`, a
repository file not under `src/`; it is kept as a parameter `T`.
The padding `(dim + T - 1) & -T` runs on 32-bit ints, where `-T` is the
two's-complement mask `2^32 - T`. -/

/-- Pixel dimensions of one allocated texture. -/
structure Dims where
  width : Nat
  height : Nat
deriving DecidableEq

/-- The dimension-bearing state of the renderer: every field that
`Renderer::Resize` allocates or sets. -/
structure RState where
  windowWidth : Nat
  windowHeight : Nat
  backbufferWidth : Nat
  backbufferHeight : Nat
  msColor : Dims
  msDepth : Dims
  ssColor : Dims
  ssDepth : Dims
  summedAreaTableWidth : Nat
  summedAreaTableHeight : Nat
  readbackLen : Nat
  satTableLen : Nat
  summedRows : Dims
  rowWGSums : Dims
  summedCols : Dims
  colWGSums : Dims
deriving DecidableEq

/-- Tile padding from renderer.cpp:217-218:
`(x + SAT_WORKGROUP_SIZE_X - 1) & -SAT_WORKGROUP_SIZE_X` on 32-bit
ints; the two's-complement negation `-T` is the mask `2^32 - T`. -/
def padTile (T x : Nat) : Nat := (x + T - 1) &&& (2 ^ 32 - T)

/-- `Renderer::Resize` (renderer.cpp:151-257) with tile size `T`: every
field is recomputed from `w` and `h`; the previous state is not
consulted. -/
def resize (T w h : Nat) (_s : RState) : RState :=
  { windowWidth := w, windowHeight := h,
    backbufferWidth := w, backbufferHeight := h,
    msColor := ⟨w, h⟩, msDepth := ⟨w, h⟩, ssColor := ⟨w, h⟩, ssDepth := ⟨w, h⟩,
    summedAreaTableWidth := padTile T w, summedAreaTableHeight := padTile T h,
    readbackLen := w * h, satTableLen := padTile T w * padTile T h,
    summedRows := ⟨padTile T w, padTile T h⟩,
    rowWGSums := ⟨padTile T w / T, padTile T h⟩,
    summedCols := ⟨padTile T h, padTile T w⟩,
    colWGSums := ⟨padTile T h / T, padTile T w⟩ }

/-- The zero-initialized renderer state: `Renderer::operator new` zeroes
the whole object (renderer.cpp:738-743). -/
def rstate0 : RState :=
  { windowWidth := 0, windowHeight := 0, backbufferWidth := 0, backbufferHeight := 0,
    msColor := ⟨0, 0⟩, msDepth := ⟨0, 0⟩, ssColor := ⟨0, 0⟩, ssDepth := ⟨0, 0⟩,
    summedAreaTableWidth := 0, summedAreaTableHeight := 0,
    readbackLen := 0, satTableLen := 0,
    summedRows := ⟨0, 0⟩, rowWGSums := ⟨0, 0⟩, summedCols := ⟨0, 0⟩, colWGSums := ⟨0, 0⟩ }

/-- `Renderer::Resize` guarded by its allocation-time asserts
(renderer.cpp:222-223): the padded table dimension divided by the tile
size must fit within one tile, for both axes; otherwise the resize
aborts. -/
def resizeChecked (T w h : Nat) (s : RState) : Option RState :=
  if padTile T w / T ≤ T ∧ padTile T h / T ≤ T then some (resize T w h s) else none

/-- Presentation blit filter selection from renderer.cpp:715-719. -/
inductive BlitFilter
  | nearest
  | linear
deriving DecidableEq

/-- The `scaled` condition of the final blit (renderer.cpp:715). -/
def scaled (s : RState) : Bool :=
  (s.windowWidth != s.backbufferWidth) || (s.windowHeight != s.backbufferHeight)

/-- Filter used by the final blit to the window (renderer.cpp:716-719):
linear when scaled, nearest otherwise. -/
def blitFilter (s : RState) : BlitFilter :=
  if scaled s then .linear else .nearest

/-- Clearing the low `k` bits with the mask `2^32 - 2^k` is rounding
down to a multiple of `2^k`, for any 32-bit value. -/
lemma land_mask (x k : Nat) (hx : x < 2 ^ 32) :
    x &&& (2 ^ 32 - 2 ^ k) = x / 2 ^ k * 2 ^ k := by
  have hmask : 2 ^ 32 - 2 ^ k = (2 ^ (32 - k) - 1) <<< k := by
    rw [Nat.shiftLeft_eq]
    rcases Nat.le_total k 32 with h | h
    · have hp : 2 ^ (32 - k) * 2 ^ k = 2 ^ 32 := by
        rw [← pow_add]; congr 1; omega
      rw [Nat.sub_mul, one_mul, hp]
    · have h32 : (2 : Nat) ^ 32 ≤ 2 ^ k := Nat.pow_le_pow_right (by norm_num) h
      have h0 : 32 - k = 0 := by omega
      rw [h0]
      simpa using Nat.sub_eq_zero_of_le h32
  rw [hmask]
  apply Nat.eq_of_testBit_eq
  intro i
  have hr : x / 2 ^ k * 2 ^ k = (x >>> k) <<< k := by
    rw [Nat.shiftLeft_eq, Nat.shiftRight_eq_div_pow]
  rw [Nat.testBit_land, Nat.testBit_shiftLeft, hr, Nat.testBit_shiftLeft,
    Nat.testBit_shiftRight, Nat.testBit_two_pow_sub_one]
  by_cases hik : k ≤ i
  · have hki : k + (i - k) = i := by omega
    rw [hki, decide_eq_true (show i ≥ k from hik)]
    simp only [Bool.true_and]
    by_cases hi32 : i < 32
    · have hlt : i - k < 32 - k := by omega
      simp [hlt]
    · have hxi : x.testBit i = false :=
        Nat.testBit_lt_two_pow
          (lt_of_lt_of_le hx (Nat.pow_le_pow_right (by norm_num) (by omega)))
      simp [hxi]
  · rw [decide_eq_false (show ¬i ≥ k from hik)]
    simp only [Bool.false_and, Bool.and_false]

/-- C4: for every width and height passed to Resize, the allocated
summed-area-table dimensions are the source dimensions rounded up to
the next tile multiple, `ceil(dim/TILE) * TILE` (with `TILE = 2^k`: the
tile size is a power of two, as required by the `& -TILE` idiom and as
in the spec scenarios, and the padded value fits in a 32-bit int). -/
theorem C4_sat_padding (k w h : Nat) (s : RState)
    (hw : w + 2 ^ k - 1 < 2 ^ 32) (hh : h + 2 ^ k - 1 < 2 ^ 32) :
    (resize (2 ^ k) w h s).summedAreaTableWidth = (w + 2 ^ k - 1) / 2 ^ k * 2 ^ k ∧
      (resize (2 ^ k) w h s).summedAreaTableHeight = (h + 2 ^ k - 1) / 2 ^ k * 2 ^ k :=
  ⟨land_mask (w + 2 ^ k - 1) k hw, land_mask (h + 2 ^ k - 1) k hh⟩

/-- Witness for C4 with TILE = 4 on a 6×7 window: padded table is
8×8. -/
theorem C4_sat_padding_witness :
    (6 + 2 ^ 2 - 1 < 2 ^ 32 ∧ 7 + 2 ^ 2 - 1 < 2 ^ 32) ∧
      ((resize (2 ^ 2) 6 7 rstate0).summedAreaTableWidth =
          (6 + 2 ^ 2 - 1) / 2 ^ 2 * 2 ^ 2 ∧
        (resize (2 ^ 2) 6 7 rstate0).summedAreaTableHeight =
          (7 + 2 ^ 2 - 1) / 2 ^ 2 * 2 ^ 2) :=
  ⟨⟨by decide, by decide⟩, C4_sat_padding 2 6 7 rstate0 (by decide) (by decide)⟩

/-- C8: the state produced by Resize is a function of the width and
height arguments alone (it never reads the previous state), so
resizing twice with identical arguments yields identical buffer
dimensions, and resizing 800×600 → 1920×1080 → 800×600 restores the
original dimensions exactly. -/
theorem C8_resize_functional (T w h : Nat) (s s' : RState) :
    resize T w h s = resize T w h s' ∧
      resize T w h (resize T w h s) = resize T w h s ∧
      resize T 800 600 (resize T 1920 1080 (resize T 800 600 s)) =
        resize T 800 600 s :=
  ⟨rfl, rfl, rfl⟩

/-- C9: the asserts at renderer.cpp:222-223 validate, at allocation
time, that the padded table dimension divided by the tile size is at
most the tile size, on both axes: any state that passes the checked
resize satisfies the single-tile bound for the workgroup-sums
buffer. -/
theorem C9_alloc_assert (T w h : Nat) (s s' : RState)
    (hs : resizeChecked T w h s = some s') :
    s'.summedAreaTableWidth / T ≤ T ∧ s'.summedAreaTableHeight / T ≤ T := by
  rw [resizeChecked] at hs
  split at hs
  · rename_i hcond
    injection hs with h1
    subst h1
    exact hcond
  · exact absurd hs (by simp)

/-- Witness for C9 at TILE = 4 on an 8×8 window. -/
theorem C9_alloc_assert_witness :
    resizeChecked 4 8 8 rstate0 = some (resize 4 8 8 rstate0) ∧
      ((resize 4 8 8 rstate0).summedAreaTableWidth / 4 ≤ 4 ∧
        (resize 4 8 8 rstate0).summedAreaTableHeight / 4 ≤ 4) :=
  ⟨by decide, C9_alloc_assert 4 8 8 rstate0 (resize 4 8 8 rstate0) (by decide)⟩

/-- C10: every Resize sets the backbuffer dimensions equal to the
window dimensions (renderer.cpp:153-157), so the `scaled` condition of
the final blit (renderer.cpp:715) is false and the presentation blit
always uses nearest-neighbor filtering; the linear branch is
unreachable. -/
theorem C10_blit_always_nearest (T w h : Nat) (s : RState) :
    scaled (resize T w h s) = false ∧ blitFilter (resize T w h s) = .nearest := by
  refine ⟨?_, ?_⟩
  · simp [scaled, resize]
  · simp [blitFilter, scaled, resize]

/-! ## Per-frame command trace, from renderer.cpp:259-323 and 325-726

`Renderer::Paint` is a fixed command sequence: GUI timestamp readback
(`UpdateGUI`), scene pass, multisample resolve, the optional SAT + DoF
block, GUI render, and the final blit.  The model records the events
the frame issues, in order: GPU timestamp writes (`glQueryCounter`),
CPU timestamp writes (`QueryPerformanceCounter`), GPU timestamp reads
(`glGetQueryObjectui64v`), CPU timestamp-pair reads, memory barriers
(`glMemoryBarrier`, with its image-access and texture-fetch bits), and
the work items themselves (draws, dispatches, readback, upload).
Program handles are `GLuint`s whose validity flag is "nonzero"
(`*mSceneSP` etc.); `ImGui::Begin` is abstracted as returning true. -/

/-- GPU timestamp slots (`GPUTimestamps::Enum`, renderer.cpp:27-46). -/
inductive GTS
  | renderSceneStart
  | renderSceneEnd
  | msResolveStart
  | msResolveEnd
  | readbackStart
  | readbackEnd
  | computeSATStart
  | computeSATEnd
  | satUploadStart
  | satUploadEnd
  | dofBlurStart
  | dofBlurEnd
  | renderGUIStart
  | renderGUIEnd
  | blitStart
  | blitEnd
deriving DecidableEq

/-- CPU timestamp slots (`CPUTimestamps::Enum`, renderer.cpp:62-71). -/
inductive CTS
  | readbackStart
  | readbackEnd
  | computeSATStart
  | computeSATEnd
  | satUploadStart
  | satUploadEnd
deriving DecidableEq

/-- The two scan axes (`SATPass`, renderer.cpp:513-517). -/
inductive SATPass
  | rows
  | cols
deriving DecidableEq

/-- The five dispatches of one scan axis (renderer.cpp:521-662). -/
inductive SATStep
  | upsweepTiles
  | upsweepWGSums
  | downsweepWGSums
  | downsweepTiles
  | transposeStep
deriving DecidableEq

/-- Work items a frame can issue. -/
inductive Work
  | sceneDraw
  | msResolve
  | readback
  | cpuComputeSAT
  | satUpload
  | satDispatch (pass : SATPass) (step : SATStep)
  | dofDraw
  | guiDraw
  | blitToWindow
deriving DecidableEq

/-- One event of the frame's command trace. -/
inductive Ev
  | qcG (t : GTS)
  | qcC (t : CTS)
  | qrG (t : GTS)
  | qrC (t : CTS)
  | barrier (image fetch : Bool)
  | work (w : Work)
deriving DecidableEq

/-- Compiled GPU program handles by role (renderer.cpp:85, 110-112,
119); a handle of 0 means the program is not ready. -/
structure Programs where
  scene : Nat
  satUpsweep : Nat
  satDownsweep : Nat
  satTranspose : Nat
  dof : Nat

/-- Frame configuration and first-frame flag read by `Paint`
(renderer.cpp:82, 107, 118). -/
structure Config where
  enableDoF : Bool
  useCPUForSAT : Bool
  firstFrame : Bool

/-- GPU timestamp-pair reads of `UpdateGUI` (renderer.cpp:265-289): the
loop reads both halves of every pair, skipping `ReadbackBackbuffer` and
`SATUpload` when the GPU SAT mode is active and skipping `ComputeSAT`
when the CPU SAT mode is active. -/
def guiGPUReads (useCPU : Bool) : List Ev :=
  [.qrG .renderSceneStart, .qrG .renderSceneEnd,
   .qrG .msResolveStart, .qrG .msResolveEnd]
  ++ (if useCPU then [.qrG .readbackStart, .qrG .readbackEnd] else [])
  ++ (if !useCPU then [.qrG .computeSATStart, .qrG .computeSATEnd] else [])
  ++ (if useCPU then [.qrG .satUploadStart, .qrG .satUploadEnd] else [])
  ++ [.qrG .dofBlurStart, .qrG .dofBlurEnd,
      .qrG .renderGUIStart, .qrG .renderGUIEnd,
      .qrG .blitStart, .qrG .blitEnd]

/-- CPU timestamp-pair reads of `UpdateGUI` (renderer.cpp:296-312): all
three pairs are read unless the GPU SAT mode skips them all. -/
def guiCPUReads (useCPU : Bool) : List Ev :=
  if useCPU then
    [.qrC .readbackStart, .qrC .readbackEnd,
     .qrC .computeSATStart, .qrC .computeSATEnd,
     .qrC .satUploadStart, .qrC .satUploadEnd]
  else []

/-- All timestamp reads of `UpdateGUI` (renderer.cpp:262-313): nothing
is read on the first frame (`&& !mFirstFrame`). -/
def updateGUITrace (useCPU firstFrame : Bool) : List Ev :=
  if firstFrame then [] else guiGPUReads useCPU ++ guiCPUReads useCPU

/-- One scan axis of the GPU SAT (renderer.cpp:519-663): each of the
five dispatches is preceded by its `glMemoryBarrier`; the up-sweep
steps barrier on `SHADER_IMAGE_ACCESS | TEXTURE_FETCH`
(renderer.cpp:525, 556), the two down-sweeps and the transpose barrier
on `SHADER_IMAGE_ACCESS` alone (renderer.cpp:586, 612, 641). -/
def satPassTrace (p : SATPass) : List Ev :=
  [.barrier true true, .work (.satDispatch p .upsweepTiles),
   .barrier true true, .work (.satDispatch p .upsweepWGSums),
   .barrier true false, .work (.satDispatch p .downsweepWGSums),
   .barrier true false, .work (.satDispatch p .downsweepTiles),
   .barrier true false, .work (.satDispatch p .transposeStep)]

/-- GPU SAT block (renderer.cpp:509-665): the `ComputeSAT` timestamps
are written unconditionally; the dispatches run only when all three
scan programs are valid (renderer.cpp:511). -/
def gpuSATTrace (upOK downOK trOK : Bool) : List Ev :=
  [.qcG .computeSATStart]
  ++ (if upOK && downOK && trOK then satPassTrace .rows ++ satPassTrace .cols else [])
  ++ [.qcG .computeSATEnd]

/-- CPU SAT block (renderer.cpp:451-506): readback, host prefix sums,
re-upload, each bracketed by its CPU (and, for the transfers, GPU)
timestamps; no validity check is involved. -/
def cpuSATTrace : List Ev :=
  [.qcC .readbackStart, .qcG .readbackStart, .work .readback,
   .qcG .readbackEnd, .qcC .readbackEnd,
   .qcC .computeSATStart, .work .cpuComputeSAT, .qcC .computeSATEnd,
   .qcC .satUploadStart, .qcG .satUploadStart, .work .satUpload,
   .qcG .satUploadEnd, .qcC .satUploadEnd]

/-- DoF blur block (renderer.cpp:668-696): timestamps unconditional;
when the DoF program is valid, a `TEXTURE_FETCH` barrier is issued
before the full-screen draw samples the finished table
(renderer.cpp:673). -/
def dofTrace (dofOK : Bool) : List Ev :=
  [.qcG .dofBlurStart]
  ++ (if dofOK then [.barrier false true, .work .dofDraw] else [])
  ++ [.qcG .dofBlurEnd]

/-- Full per-frame command trace of `Renderer::Paint`
(renderer.cpp:325-726), parameterized by the validity flags of the five
programs and the frame configuration. -/
def paintTraceB (sceneOK upOK downOK trOK dofOK enableDoF useCPU firstFrame : Bool) :
    List Ev :=
  updateGUITrace useCPU firstFrame
  ++ [.qcG .renderSceneStart]
  ++ (if sceneOK then [.work .sceneDraw] else [])
  ++ [.qcG .renderSceneEnd]
  ++ [.qcG .msResolveStart, .work .msResolve, .qcG .msResolveEnd]
  ++ (if enableDoF then
        (if useCPU then cpuSATTrace else gpuSATTrace upOK downOK trOK)
          ++ dofTrace dofOK
      else [])
  ++ [.qcG .renderGUIStart, .work .guiDraw, .qcG .renderGUIEnd]
  ++ [.qcG .blitStart, .work .blitToWindow, .qcG .blitEnd]

/-- The frame trace with program validity given by nonzero handles. -/
def paintTrace (p : Programs) (c : Config) : List Ev :=
  paintTraceB (p.scene != 0) (p.satUpsweep != 0) (p.satDownsweep != 0)
    (p.satTranspose != 0) (p.dof != 0) c.enableDoF c.useCPUForSAT c.firstFrame

/-- Does the trace dispatch any GPU SAT scan step? -/
def hasSATDispatch (t : List Ev) : Bool :=
  t.any fun e =>
    match e with
    | .work (.satDispatch _ _) => true
    | _ => false

/-- Is the event a work item (draw, dispatch, readback, upload)? -/
def isWorkEv : Ev → Bool
  | .work _ => true
  | _ => false

/-- Does the barrier cover both image access and sampled-texture
(fetch) access? -/
def coversBoth : Ev → Bool
  | .barrier image fetch => image && fetch
  | _ => false

/-- Events of the SAT scan region: the barriers, the scan dispatches
and the DoF consumer draw. -/
def satScanEv : Ev → Bool
  | .barrier _ _ => true
  | .work (.satDispatch _ _) => true
  | .work .dofDraw => true
  | _ => false

/-- The sub-trace of SAT-scan barriers, scan dispatches and the DoF
draw, in issue order. -/
def satScanEvents (t : List Ev) : List Ev := t.filter satScanEv

/-- Check that between every two consecutive work items of the trace
there is an event satisfying `need`.  State: `seen` = a work item has
already occurred, `cov` = the current gap already contains a `need`
event. -/
def gapsSeparatedBy (need : Ev → Bool) : Bool → Bool → List Ev → Bool
  | _, _, [] => true
  | seen, cov, e :: r =>
    if isWorkEv e then (!seen || cov) && gapsSeparatedBy need true false r
    else gapsSeparatedBy need seen (cov || need e) r

/-- The claim's separation property: every pair of consecutive SAT-scan
steps (and the final DoF consumption) is separated by a barrier
covering BOTH image access and sampled-texture access. -/
def sepCoversBoth (t : List Ev) : Bool :=
  gapsSeparatedBy coversBoth false false (satScanEvents t)

/-- How each SAT-region work item reads its input: the up-sweep steps
bind their input as a sampled texture (renderer.cpp:528/533, 559/563)
and the DoF draw samples the table (renderer.cpp:678); the down-sweep
and transpose steps read via image bindings (renderer.cpp:589-592,
615-620, 644-648). -/
def readsViaSampler : Work → Bool
  | .satDispatch _ .upsweepTiles => true
  | .satDispatch _ .upsweepWGSums => true
  | .dofDraw => true
  | _ => false

/-- Does the barrier cover the access mode the given work item uses to
read its input? -/
def barrierCoversReader (w : Work) (e : Ev) : Bool :=
  match e with
  | .barrier image fetch => if readsViaSampler w then fetch else image
  | _ => false

/-- Check that every work item of the trace is preceded, since the
previous work item, by a barrier covering that item's read access
mode; `acc` accumulates the current gap's events. -/
def gapsCoverReaders (acc : List Ev) : List Ev → Bool
  | [] => true
  | (Ev.work w) :: r => acc.any (barrierCoversReader w) && gapsCoverReaders [] r
  | e :: r => gapsCoverReaders (e :: acc) r

/-- The separation property the code actually provides: every SAT-scan
step and the DoF draw is preceded by a barrier covering the access
mode it reads with. -/
def sepCoversReaders (t : List Ev) : Bool :=
  gapsCoverReaders [] (satScanEvents t)

/-- C5 counterexample: on a frame running the GPU SAT path (programs
valid, DoF on, GPU mode), the scan steps do run, but the claim that
every separating barrier covers both image access and sampled-texture
access is false: the barriers before steps 3, 4 and the transpose are
`SHADER_IMAGE_ACCESS` only and the one before the DoF draw is
`TEXTURE_FETCH` only (renderer.cpp:586, 612, 641, 673). -/
theorem C5_barrier_both_cex :
    sepCoversBoth (paintTrace ⟨1, 1, 1, 1, 1⟩ ⟨true, false, false⟩) = false ∧
      hasSATDispatch (paintTrace ⟨1, 1, 1, 1, 1⟩ ⟨true, false, false⟩) = true := by
  decide

/-- C5 (amended): in the GPU SAT path every scan step that writes a
buffer read by a later step is separated from it by a memory barrier —
between steps 1→2, 2→3, 3→4, before the transpose reads step 4's
output, and before the DoF consumer samples the finished table — and
each such barrier covers the access mode the consuming step reads
with: sampled-texture access before the up-sweep steps and the DoF
draw, image access before the down-sweep and transpose steps (only the
barriers before the up-sweep steps cover both modes). -/
theorem C5_barrier_per_reader :
    sepCoversReaders (paintTrace ⟨1, 1, 1, 1, 1⟩ ⟨true, false, false⟩) = true := by
  decide

/-- On a DoF-disabled frame, no stage of the SAT engine runs and no
SAT-related timestamp is written; the GUI's pair-read skipping depends
only on the SAT mode and the first-frame flag. -/
lemma paintTraceB_dof_disabled (s u d t dofOK uc f : Bool) :
    hasSATDispatch (paintTraceB s u d t dofOK false uc f) = false ∧
    (paintTraceB s u d t dofOK false uc f).contains (.work .cpuComputeSAT) = false ∧
    (paintTraceB s u d t dofOK false uc f).contains (.qcG .computeSATStart) = false ∧
    (paintTraceB s u d t dofOK false uc f).contains (.qcG .readbackStart) = false ∧
    (paintTraceB s u d t dofOK false uc f).contains (.qcG .satUploadStart) = false ∧
    (paintTraceB s u d t dofOK false uc f).contains (.qcG .dofBlurStart) = false ∧
    (paintTraceB s u d t dofOK false uc f).contains (.qcC .computeSATStart) = false ∧
    (paintTraceB s u d t dofOK false uc f).contains (.qrG .computeSATStart) = (!uc && !f) ∧
    (paintTraceB s u d t dofOK false uc f).contains (.qrG .readbackStart) = (uc && !f) ∧
    (paintTraceB s u d t dofOK false uc f).contains (.qrC .computeSATStart) = (uc && !f) ∧
    (paintTraceB s u d t dofOK false uc f).contains (.qrG .dofBlurStart) = !f := by
  revert s u d t dofOK uc f
  decide

/-- C6 counterexample: on a non-first frame with DoF disabled and GPU
SAT mode, `UpdateGUI` still reads the GPU `ComputeSAT` timestamp pair
(and the `DOFBlur` pair) even though the SAT path was inactive that
frame and the pair was not populated: the claim that pairs of inactive
paths are never read is false (the GUI skip logic,
renderer.cpp:267-281, only tests the SAT mode, never `mEnableDoF`). -/
theorem C6_inactive_pair_read_cex :
    (paintTrace ⟨1, 1, 1, 1, 1⟩ ⟨false, false, false⟩).contains
        (.qrG .computeSATStart) = true ∧
      (paintTrace ⟨1, 1, 1, 1, 1⟩ ⟨false, false, false⟩).contains
        (.qcG .computeSATStart) = false ∧
      (paintTrace ⟨1, 1, 1, 1, 1⟩ ⟨false, false, false⟩).contains
        (.qrG .dofBlurStart) = true ∧
      (paintTrace ⟨1, 1, 1, 1, 1⟩ ⟨false, false, false⟩).contains
        (.qcG .dofBlurStart) = false ∧
      hasSATDispatch (paintTrace ⟨1, 1, 1, 1, 1⟩ ⟨false, false, false⟩) = false ∧
      (paintTrace ⟨1, 1, 1, 1, 1⟩ ⟨false, false, false⟩).contains
        (.work .cpuComputeSAT) = false := by
  decide

/-- C6 (amended): on any frame with DoF disabled, the SAT engine is
not invoked (no GPU scan dispatch, no CPU SAT computation) and no
SAT-related timestamp — GPU `ComputeSAT`, `ReadbackBackbuffer`,
`SATUpload` or any CPU pair — is populated; the GUI read-skipping,
however, depends only on the SAT mode and the first-frame flag: pairs
of the inactive CPU-vs-GPU sub-mode are never read, but the
current-mode SAT pairs and the DoF pair are still read even though DoF
is disabled. -/
theorem C6_dof_disabled_no_sat (p : Programs) (uc f : Bool) :
    hasSATDispatch (paintTrace p ⟨false, uc, f⟩) = false ∧
    (paintTrace p ⟨false, uc, f⟩).contains (.work .cpuComputeSAT) = false ∧
    (paintTrace p ⟨false, uc, f⟩).contains (.qcG .computeSATStart) = false ∧
    (paintTrace p ⟨false, uc, f⟩).contains (.qcG .readbackStart) = false ∧
    (paintTrace p ⟨false, uc, f⟩).contains (.qcG .satUploadStart) = false ∧
    (paintTrace p ⟨false, uc, f⟩).contains (.qcG .dofBlurStart) = false ∧
    (paintTrace p ⟨false, uc, f⟩).contains (.qcC .computeSATStart) = false ∧
    (paintTrace p ⟨false, uc, f⟩).contains (.qrG .computeSATStart) = (!uc && !f) ∧
    (paintTrace p ⟨false, uc, f⟩).contains (.qrG .readbackStart) = (uc && !f) ∧
    (paintTrace p ⟨false, uc, f⟩).contains (.qrC .computeSATStart) = (uc && !f) ∧
    (paintTrace p ⟨false, uc, f⟩).contains (.qrG .dofBlurStart) = !f :=
  paintTraceB_dof_disabled (p.scene != 0) (p.satUpsweep != 0) (p.satDownsweep != 0)
    (p.satTranspose != 0) (p.dof != 0) uc f

/-- Every program-gated stage runs exactly when its validity flags
allow it, and the frame tail always completes. -/
lemma paintTraceB_validity_gates (s u d t dofOK e uc f : Bool) :
    (paintTraceB s u d t dofOK e uc f).contains (.work .sceneDraw) = s ∧
    hasSATDispatch (paintTraceB s u d t dofOK e uc f) = (e && !uc && u && d && t) ∧
    (paintTraceB s u d t dofOK e uc f).contains (.work .dofDraw) = (e && dofOK) ∧
    (paintTraceB s u d t dofOK e uc f).contains (.work .guiDraw) = true ∧
    (paintTraceB s u d t dofOK e uc f).contains (.work .blitToWindow) = true := by
  revert s u d t dofOK e uc f
  decide

/-- C7: every stage that issues work requiring a compiled GPU program
checks the program's nonzero-handle validity flag first: the scene
draw runs iff the scene program handle is nonzero
(renderer.cpp:334), the GPU SAT scan dispatches run iff all three scan
program handles are nonzero (renderer.cpp:511, on a GPU-mode DoF
frame), the DoF blur draw runs iff the DoF program handle is nonzero
(renderer.cpp:670, on a DoF frame) — and the rest of the frame (GUI
render and the final blit) always completes. -/
theorem C7_program_validity_gates (p : Programs) (c : Config) :
    (paintTrace p c).contains (.work .sceneDraw) = (p.scene != 0) ∧
    hasSATDispatch (paintTrace p c) =
      (c.enableDoF && !c.useCPUForSAT && (p.satUpsweep != 0) && (p.satDownsweep != 0)
        && (p.satTranspose != 0)) ∧
    (paintTrace p c).contains (.work .dofDraw) = (c.enableDoF && (p.dof != 0)) ∧
    (paintTrace p c).contains (.work .guiDraw) = true ∧
    (paintTrace p c).contains (.work .blitToWindow) = true := by
  obtain ⟨e, uc, f⟩ := c
  exact paintTraceB_validity_gates (p.scene != 0) (p.satUpsweep != 0)
    (p.satDownsweep != 0) (p.satTranspose != 0) (p.dof != 0) e uc f
